import Mathlib

/-!
Verification of the technical-indicator-calculator core.

A shallow embedding, in Lean 4, of the parts of the
`technical-indicator-calculator` crate that the specification's claims are
about: the indicator kernels (RSI, OBV, SMA, Stochastic), the worker's
producer/consumer control flow, the completeness cache and its derivation
rules, the idempotent batch upsert, and the parameter-resolution helpers.

Modelling conventions, used consistently below:

* Rust `f64` values are modelled as exact rationals (`Rat`).  Every concrete
  input evaluated in this file keeps `f64` arithmetic exact (small integers,
  sums and divisions that land on representable values), so on those inputs
  the rational model and the double-precision code agree bit for bit.
* UTC timestamps (`DateTime<Utc>`) are modelled as integral Unix seconds
  (`Int`); `chrono`'s `num_seconds` is then exact and `num_hours` is
  truncating division by 3600 toward zero — `Int.div` in Lean.
* Rust slice indexing `xs[i]` is modelled with `List.getD xs i 0`; all uses
  below are guarded so the index is in bounds, exactly as in the source.
* Fallible Rust functions (`anyhow::Result`) become `Except String α`.
* The struct `CandleData` (column-oriented candle series) is absent from the
  source snapshot (`database/models.rs` was replaced by an older copy of the
  Postgres gateway); its shape is reconstructed from its uses across the
  crate and from spec §3 "Candle Series": parallel columns of equal length.
-/

deriving instance DecidableEq for Except

namespace Backtester

/-- serde_json's `Number`: either an integer (i64/u64 payload) or a double.
`ofFloat` keeps the rational model of `f64`. -/
inductive JNumber where
  | ofInt (i : Int)
  | ofFloat (q : Rat)
deriving DecidableEq

/-- Embeds `serde_json::Number::as_i64`: `Some` exactly for integers representable
in `i64`; floats are never converted. -/
def JNumber.asI64 : JNumber → Option Int
  | .ofInt i => if -(2 ^ 63) ≤ i ∧ i < 2 ^ 63 then some i else none
  | .ofFloat _ => none

/-- Embeds `serde_json::Number::as_u64`: `Some` exactly for non-negative integers
representable in `u64`. -/
def JNumber.asU64 : JNumber → Option Nat
  | .ofInt i => if 0 ≤ i ∧ i < 2 ^ 64 then some i.toNat else none
  | .ofFloat _ => none

mutual
/-- Embeds `serde_json::Value`.  Arrays and objects carry their own list types so
that recursion over the tree stays structural. -/
inductive Json where
  | null
  | bool (b : Bool)
  | num (n : JNumber)
  | str (s : String)
  | arr (elems : JsonList)
  | obj (fields : JsonObj)

/-- A sequence of JSON values (a `Vec<Value>`). -/
inductive JsonList where
  | nil
  | cons (hd : Json) (tl : JsonList)

/-- A sequence of key/value fields (serde's object `Map<String, Value>`). -/
inductive JsonObj where
  | nil
  | cons (key : String) (val : Json) (tl : JsonObj)
end

deriving instance DecidableEq for Json
deriving instance DecidableEq for JsonList
deriving instance DecidableEq for JsonObj

/-- Build an object from a list of fields (convenience for concrete inputs). -/
def JsonObj.ofList : List (String × Json) → JsonObj
  | [] => .nil
  | f :: rest => .cons f.1 f.2 (JsonObj.ofList rest)

/-- Object key lookup. -/
def JsonObj.find? (key : String) : JsonObj → Option Json
  | .nil => none
  | .cons k v rest => if k = key then some v else JsonObj.find? key rest

/-- Build an object value from a list of fields. -/
def Json.mkObj (fields : List (String × Json)) : Json :=
  .obj (JsonObj.ofList fields)

/-- serde_json's `Index<&str>` for shared references (`&value["key"]`):
object lookup, `Null` when the key is absent or the value is not an object. -/
def Json.index (v : Json) (key : String) : Json :=
  match v with
  | .obj fields =>
    match fields.find? key with
    | some f => f
    | none => .null
  | _ => .null

/-- Embeds `Value::as_u64` (`Number::as_u64` on numbers, `None` otherwise). -/
def Json.asU64 : Json → Option Nat
  | .num n => n.asU64
  | _ => none

/-- Embeds `Value::as_i64` (`Number::as_i64` on numbers, `None` otherwise). -/
def Json.asI64 : Json → Option Int
  | .num n => n.asI64
  | _ => none

/-- Embeds `Value::as_f64` result, in the rational model. -/
def Json.asF64 : Json → Option Rat
  | .num (.ofInt i) => some (i : Rat)
  | .num (.ofFloat q) => some q
  | _ => none

mutual
/-- Compact rendering of a JSON value, as serde's `Display`/`to_string`
produce for the cache keys.  Floats never occur in the keys exercised below;
their textual form (serde uses ryu) is out of scope and rendered as the
rational's own textual form. -/
def Json.render : Json → String
  | .null => "null"
  | .bool true => "true"
  | .bool false => "false"
  | .num (.ofInt i) => toString i
  | .num (.ofFloat q) => toString q
  | .str s => "\"" ++ s ++ "\""
  | .arr elems => "[" ++ JsonList.render elems ++ "]"
  | .obj fields => "\x7b" ++ JsonObj.render fields ++ "\x7d"

/-- Comma-separated rendering of an array's elements. -/
def JsonList.render : JsonList → String
  | .nil => ""
  | .cons hd .nil => Json.render hd
  | .cons hd tl => Json.render hd ++ "," ++ JsonList.render tl

/-- Comma-separated rendering of an object's fields. -/
def JsonObj.render : JsonObj → String
  | .nil => ""
  | .cons k v .nil => "\"" ++ k ++ "\":" ++ Json.render v
  | .cons k v tl => "\"" ++ k ++ "\":" ++ Json.render v ++ "," ++ JsonObj.render tl
end

/-- Modelled from the spec: column-oriented candle series (§3 "Candle
Series"); `database/models.rs` is missing from the snapshot, the field set is
the one used by every kernel and by `Worker::process_job` (`open_time`,
`open`, `high`, `low`, `close`, `volume` as parallel equal-length columns).
`open` is a Lean keyword, hence the field name `open_price`. -/
structure CandleData where
  symbol : String
  interval : String
  open_time : List Int
  open_price : List Rat
  high : List Rat
  low : List Rat
  close : List Rat
  volume : List Rat
deriving DecidableEq

/-! ## Indicator kernels: OBV (`indicators/volume.rs`) -/

/-- The loop body of `VolumeCalculator::calculate_obv`: walk the candles from
index 1, carrying the previous close and the running OBV total; add the
volume when the close rose, subtract it when it fell, keep it otherwise, and
emit `(open_time[i], obv)` at every step. -/
def obvLoop (obv : Rat) (prev_close : Rat) :
    List (Rat × Rat × Int) → List (Int × Rat)
  | [] => []
  | (c, v, t) :: rest =>
    let obv' := if c > prev_close then obv + v
                else if c < prev_close then obv - v
                else obv
    (t, obv') :: obvLoop obv' c rest

/-- Embeds `VolumeCalculator::calculate_obv`. -/
def calculate_obv (cd : CandleData) : Except String (List (Int × Rat)) :=
  if cd.close.length < 2 then
    .error "Not enough data points for OBV calculation"
  else
    .ok (obvLoop 0 (cd.close.headD 0)
      (cd.close.tail.zip (cd.volume.tail.zip cd.open_time.tail)))

/-! ## Indicator kernels: RSI (`indicators/ta.rs`, `indicators/overlaps.rs`)

The snapshot's `indicators/overlaps.rs` holds `OscillatorCalculator`
(the crate's module layout shuffles names); `calculate_rsi` there drives the
streaming `RelativeStrengthIndex` from `indicators/ta.rs`. -/

/-- State of `RelativeStrengthIndex` (`indicators/ta.rs`). -/
structure RelativeStrengthIndex where
  period : Nat
  prev_value : Option Rat
  gains : List Rat
  losses : List Rat
  avg_gain : Option Rat
  avg_loss : Option Rat
  index : Nat
deriving DecidableEq

/-- Embeds `RelativeStrengthIndex::new`. -/
def RelativeStrengthIndex.new (period : Nat) :
    Except String RelativeStrengthIndex :=
  if period = 0 then .error "Period must be greater than 0"
  else .ok ⟨period, none, [], [], none, none, 0⟩

/-- Embeds `RelativeStrengthIndex::next`.  `f64::NAN` outputs (the warm-up region)
are modelled as `none`; inside the warm-up the code only ever returns the
`NAN` literal, and afterwards the averages exist, so the option is a faithful
image of the NaN flow. -/
def RelativeStrengthIndex.next (s : RelativeStrengthIndex) (input : Rat) :
    RelativeStrengthIndex × Option Rat :=
  let s1 :=
    match s.prev_value with
    | none => s
    | some prev =>
      let change := input - prev
      let gain := if 0 ≤ change then change else 0
      let loss := if 0 ≤ change then 0 else -change
      let s2 :=
        if s.index < s.period then
          let gains := s.gains ++ [gain]
          let losses := s.losses ++ [loss]
          if s.index = s.period - 1 then
            { s with gains := gains, losses := losses,
                     avg_gain := some (gains.sum / (s.period : Rat)),
                     avg_loss := some (losses.sum / (s.period : Rat)) }
          else
            { s with gains := gains, losses := losses }
        else
          { s with
              avg_gain := some ((s.avg_gain.getD 0 * ((s.period : Rat) - 1)
                                  + gain) / (s.period : Rat)),
              avg_loss := some ((s.avg_loss.getD 0 * ((s.period : Rat) - 1)
                                  + loss) / (s.period : Rat)) }
      { s2 with index := s.index + 1 }
  let s3 := { s1 with prev_value := some input }
  let out :=
    if s.period ≤ s3.index then
      match s3.avg_gain, s3.avg_loss with
      | some ag, some al =>
        if al = 0 then some 100 else some (100 - 100 / (1 + ag / al))
      | _, _ => none
    else none
  (s3, out)

/-- Feed a close series through the streaming RSI, collecting the per-index
outputs (`none` = NaN). -/
def rsiSteps (s : RelativeStrengthIndex) : List Rat → List (Option Rat)
  | [] => []
  | c :: rest =>
    let p := s.next c
    p.2 :: rsiSteps p.1 rest

/-- Embeds `OscillatorCalculator::calculate_rsi` (snapshot file
`indicators/overlaps.rs`, lines 15–37): guard `close.len() < period + 1`,
then emit `(open_time[i], value)` for every `i ≥ period` whose streamed
output is not NaN. -/
def calculate_rsi (cd : CandleData) (period : Nat) :
    Except String (List (Int × Rat)) :=
  if cd.close.length < period + 1 then
    .error "Not enough data points for RSI calculation"
  else
    match RelativeStrengthIndex.new period with
    | .error e => .error e
    | .ok rsi0 =>
      .ok (((List.range cd.close.length).zip (rsiSteps rsi0 cd.close)).filterMap
        fun p =>
          match p.2 with
          | some v =>
            if period ≤ p.1 then some (cd.open_time.getD p.1 0, v) else none
          | none => none)

/-! ## Parameter resolution (`talib_bindings/common.rs`) -/

/-- Rust's `i as c_int` cast: wrap the integer into the `i32` range. -/
def i32cast (i : Int) : Int := (i + 2 ^ 31) % 2 ^ 32 - 2 ^ 31

/-- Embeds `as_i64` applied to a parameter's JSON value (the two nested `if let`s of
`get_integer_param`): `some` exactly when the value is a `Number` convertible
to `i64`. -/
def Json.paramI64 : Json → Option Int
  | .num n => n.asI64
  | _ => none

/-- Embeds `TaLibAbstract::get_integer_param` (`talib_bindings/common.rs`, lines
102–119): scan the `(name, value)` pairs; the first entry whose name matches
and whose value is an `i64`-convertible number is returned (cast to `c_int`);
otherwise the scan continues, and the hard-coded default is returned at the
end.  The `Result` is always `Ok`. -/
def get_integer_param (parameters : List (String × Json)) (name : String)
    (default : Int) : Except String Int :=
  match parameters with
  | [] => .ok default
  | (param_name, value) :: rest =>
    if param_name = name then
      match value.paramI64 with
      | some i => .ok (i32cast i)
      | none => get_integer_param rest name default
    else get_integer_param rest name default

/-- The worker's parameter idiom `params["period"].as_u64().unwrap_or(d)`
(`processor/worker.rs`, e.g. line 294 for RSI with `d = 14`). -/
def paramU64D (params : Json) (key : String) (default : Nat) : Nat :=
  ((params.index key).asU64).getD default

/-! ## TA-Lib backed kernels (`talib_bindings/overlaps.rs`)

The numeric output of `TA_SMA` is produced by the C library, outside this
repository; the FFI call is modelled as an oracle record `TaOutput` holding
whatever the library wrote into `out_beg_idx`, `out_nb_element` and
`out_data`.  TA-Lib's documented contract (`0 ≤ outBegIdx` and
`outBegIdx + outNBElement ≤ endIdx + 1`) appears as a hypothesis where the
index bounds depend on it; the Rust-side index bookkeeping is embedded
exactly. -/

/-- Result of one TA-Lib FFI call: return code and output arrays.
`out_beg_idx`/`out_nb_element` are non-negative `c_int`s on success, hence
`Nat`. -/
structure TaOutput where
  ret_code : Int
  out_beg_idx : Nat
  out_nb_element : Nat
  out_data : List Rat
deriving DecidableEq

/-- Embeds `OverlapIndicators::calculate_sma` (`talib_bindings/overlaps.rs`, lines
12–52): empty input short-circuits to an empty emission; the period is
resolved with default 14; after a successful `TA_SMA` call the results are
re-indexed as `original_idx = out_beg_idx + i`. -/
def calculate_sma (close : List Rat) (parameters : List (String × Json))
    (ta : TaOutput) : Except String (List (Nat × Rat)) :=
  if close.length = 0 then .ok []
  else
    match get_integer_param parameters "period" 14 with
    | .error e => .error e
    | .ok _period =>
      if ta.ret_code ≠ 0 then
        .error "Failed to call TA_SMA"
      else
        .ok ((List.range ta.out_nb_element).map fun i =>
          (ta.out_beg_idx + i, ta.out_data.getD i 0))

/-! ## Hand-written Stochastic kernel (`indicators/overlaps.rs`, lines
76–143) -/

/-- The window `l[lo ..= lo+len-1]` of a column. -/
def windowList (l : List Rat) (lo len : Nat) : List Rat :=
  (l.drop lo).take len

/-- Fold of `max` over a window; the Rust loop starts from `f64::NEG_INFINITY`
so on the (always non-empty) windows below this equals the window maximum,
seeded here with the window's own head. -/
def windowMax (l : List Rat) (lo len : Nat) : Rat :=
  (windowList l lo len).foldl max ((windowList l lo len).headD 0)

/-- Fold of `min` over a window, seeded like `windowMax` (Rust starts from
`f64::INFINITY`). -/
def windowMin (l : List Rat) (lo len : Nat) : Rat :=
  (windowList l lo len).foldl min ((windowList l lo len).headD 0)

/-- Raw `%K` at candle index `i` (loop at lines 91–110): highest high and
lowest low over the trailing `k_period` window, then
`(close − low) / range × 100`, defaulting to 50 on a flat window. -/
def stochKValue (cd : CandleData) (k_period : Nat) (i : Nat) : Rat :=
  let highest_high := windowMax cd.high (i + 1 - k_period) k_period
  let lowest_low := windowMin cd.low (i + 1 - k_period) k_period
  let range := highest_high - lowest_low
  if 0 < range then (cd.close.getD i 0 - lowest_low) / range * 100 else 50

/-- Embeds `OscillatorCalculator::calculate_stochastic`, emitting
`(time_index, (%K_slowed, %D))` pairs; the source then reads the timestamp
as `open_time[time_index]` (see `stochasticTimes`). -/
def calculate_stochastic (cd : CandleData) (k_period k_slowing d_period : Nat) :
    Except String (List (Nat × (Rat × Rat))) :=
  if cd.close.length < k_period + k_slowing + d_period then
    .error "Not enough data points for Stochastic calculation"
  else
    let k_values := (List.range' (k_period - 1)
        (cd.close.length - (k_period - 1))).map (stochKValue cd k_period)
    let slowed := (List.range' (k_slowing - 1)
        (k_values.length - (k_slowing - 1))).map fun i =>
      (windowList k_values (i + 1 - k_slowing) k_slowing).sum / (k_slowing : Rat)
    .ok ((List.range' (d_period - 1) (slowed.length - (d_period - 1))).map fun i =>
      (i + (k_period - 1) + (k_slowing - 1),
       (slowed.getD i 0,
        (windowList slowed (i + 1 - d_period) d_period).sum / (d_period : Rat))))

/-- The timestamps the source attaches to the Stochastic emissions
(`results.push((candle_data.open_time[time_index], ...))`). -/
def stochasticTimes (cd : CandleData) (k_period k_slowing d_period : Nat) :
    Except String (List (Int × (Rat × Rat))) :=
  match calculate_stochastic cd k_period k_slowing d_period with
  | .error e => .error e
  | .ok l => .ok (l.map fun p => (cd.open_time.getD p.1 0, p.2))

/-! ## Generic TA-Lib adapter (`indicators/calculator.rs`) -/

/-- Embeds `IndicatorCalculator::calculate_indicator` (lines 23–70): empty candles
error out; the TA-Lib dispatch (`call_function`) is the oracle argument
`ta_results`; each `(idx, value)` is mapped to `(open_time[idx], value)`,
with an out-of-range `idx` clamped to the final timestamp. -/
def calculate_indicator (cd : CandleData)
    (ta_results : Except String (List (Nat × Json))) :
    Except String (List (Int × Json)) :=
  if cd.close.length = 0 then .error "No candle data available"
  else
    match ta_results with
    | .error e => .error e
    | .ok results =>
      .ok (results.map fun p =>
        if p.1 < cd.open_time.length then (cd.open_time.getD p.1 0, p.2)
        else (cd.open_time.getD (cd.open_time.length - 1) 0, p.2))

/-! ## Jobs and configurations (`processor/job.rs`) -/

/-- Embeds `IndicatorType` (`processor/job.rs`). -/
inductive IndicatorType where
  | oscillator
  | overlap
  | volume
  | volatility
  | pattern
deriving DecidableEq

/-- The `Display` impl of `IndicatorType`. -/
def IndicatorType.toStr : IndicatorType → String
  | .oscillator => "oscillator"
  | .overlap => "overlap"
  | .volume => "volume"
  | .volatility => "volatility"
  | .pattern => "pattern"

/-- Embeds `str::to_lowercase`, character by character (`String.toLower` itself is
not kernel-reducible; on the ASCII indicator-type names the two agree). -/
def toLowerStr (s : String) : String := String.mk (s.data.map Char.toLower)

/-- Embeds `From<&str> for IndicatorType`: lower-case match, defaulting to
`Oscillator`. -/
def IndicatorType.ofStr (s : String) : IndicatorType :=
  match toLowerStr s with
  | "oscillator" => .oscillator
  | "overlap" => .overlap
  | "volume" => .volume
  | "volatility" => .volatility
  | "pattern" => .pattern
  | _ => .oscillator

/-- One row of `indicator_config` as loaded by
`get_enabled_indicator_configs` (id and timestamps are irrelevant to the
claims). -/
structure IndicatorConfig where
  symbol : String
  interval : String
  indicator_type : String
  indicator_name : String
  parameters : Json
  enabled : Bool
deriving DecidableEq

/-- Embeds `CalculationJob` (`processor/job.rs`). -/
structure CalculationJob where
  symbol : String
  interval : String
  indicator_type : IndicatorType
  indicator_name : String
  parameters : Json
deriving DecidableEq

/-- Embeds `CalculationJob::cache_key`:
`job:<symbol>:<interval>:<type>:<name>:<parameters>`. -/
def CalculationJob.cache_key (j : CalculationJob) : String :=
  "job:" ++ j.symbol ++ ":" ++ j.interval ++ ":" ++ j.indicator_type.toStr
    ++ ":" ++ j.indicator_name ++ ":" ++ j.parameters.render

/-- The job the producer builds from a config row
(`processor/worker.rs`, lines 98–106). -/
def jobOfConfig (c : IndicatorConfig) : CalculationJob :=
  { symbol := c.symbol
    interval := c.interval
    indicator_type := IndicatorType.ofStr c.indicator_type
    indicator_name := c.indicator_name
    parameters := c.parameters }

/-! ## Completeness cache (`cache/completeness.rs`) -/

/-- Embeds `CompletenessInfo`. -/
structure CompletenessInfo where
  symbol : String
  interval : String
  indicator_name : String
  parameters : Json
  last_calculated_time : Option Int
  first_candle_time : Option Int
  last_candle_time : Option Int
  data_count : Int
  coverage_percent : Int
  is_complete : Bool
  updated_at : Int
deriving DecidableEq

/-- Embeds `CompletenessInfo::cache_key`:
`<symbol>:<interval>:<name>:<parameters>`. -/
def CompletenessInfo.cache_key (i : CompletenessInfo) : String :=
  i.symbol ++ ":" ++ i.interval ++ ":" ++ i.indicator_name ++ ":"
    ++ i.parameters.render

/-- Embeds `CompletenessInfo::from_job`; `Utc::now()` is the explicit `now`. -/
def CompletenessInfo.from_job (job : CalculationJob) (now : Int) :
    CompletenessInfo :=
  { symbol := job.symbol
    interval := job.interval
    indicator_name := job.indicator_name
    parameters := job.parameters
    last_calculated_time := none
    first_candle_time := none
    last_candle_time := none
    data_count := 0
    coverage_percent := 0
    is_complete := false
    updated_at := now }

/-- Embeds `CompletenessInfo::is_valid`: the record's age is strictly below the TTL
(`age < Duration::minutes(ttl)`). -/
def CompletenessInfo.is_valid (i : CompletenessInfo)
    (now ttl_minutes : Int) : Bool :=
  now - i.updated_at < ttl_minutes * 60

/-- The key `CompletenessCache::get`/`remove` build from a job (the same
format string as `CompletenessInfo::cache_key`). -/
def jobCompletenessKey (job : CalculationJob) : String :=
  job.symbol ++ ":" ++ job.interval ++ ":" ++ job.indicator_name ++ ":"
    ++ job.parameters.render

/-- Embeds `CompletenessCache`: the `RwLock<HashMap<..>>` is modelled as an
association list with unique keys (`update` replaces in place). -/
structure CompletenessCache where
  cache : List (String × CompletenessInfo)
  ttl_minutes : Int
deriving DecidableEq

/-- Embeds `CompletenessCache::get`: raw lookup, then
`info.filter(|i| i.is_valid(ttl))` — stale entries read as absent. -/
def CompletenessCache.get (c : CompletenessCache) (now : Int)
    (job : CalculationJob) : Option CompletenessInfo :=
  match c.cache.find? (fun e => e.1 = jobCompletenessKey job) with
  | some e => if e.2.is_valid now c.ttl_minutes then some e.2 else none
  | none => none

/-- Replace-or-append on the underlying association list (HashMap
`insert`). -/
def assocUpsert (key : String) (info : CompletenessInfo) :
    List (String × CompletenessInfo) → List (String × CompletenessInfo)
  | [] => [(key, info)]
  | e :: rest =>
    if e.1 = key then (key, info) :: rest
    else e :: assocUpsert key info rest

/-- Embeds `CompletenessCache::update`. -/
def CompletenessCache.update (c : CompletenessCache)
    (info : CompletenessInfo) : CompletenessCache :=
  { c with cache := assocUpsert info.cache_key info c.cache }

/-- Embeds `CompletenessCache::get_stats`: `(total, complete, incomplete)` counted
over the raw map, with no freshness filter. -/
def CompletenessCache.get_stats (c : CompletenessCache) : Nat × Nat × Nat :=
  let total := c.cache.length
  let complete := (c.cache.filter (fun e => e.2.is_complete)).length
  (total, complete, total - complete)

/-- Embeds `CompletenessController::is_job_complete`
(`cache/completeness_controller.rs`, lines 126–133). -/
def is_job_complete (c : CompletenessCache) (now : Int)
    (job : CalculationJob) : Bool :=
  match c.get now job with
  | some info => info.is_complete
  | none => false

/-! ## Completeness derivation (`cache/completeness_controller.rs`,
`initialize_cache`, lines 55–112) -/

/-- Rust's `f64 as i32`: truncation toward zero, saturating at the `i32`
bounds.  `Int.tdiv` is truncation toward zero because denominators
are positive. -/
def f64AsI32 (q : Rat) : Int :=
  max (-(2 ^ 31)) (min (2 ^ 31 - 1) (q.num.tdiv (q.den : Int)))

/-- The per-config body of `CompletenessController::initialize_cache`:
`candle_range` is the `candle_ranges` lookup (absent when
`get_candle_data_range` failed), `completeness` is the
`get_indicator_completeness` call.  Coverage and the complete-flag are only
computed when all three timestamps exist and the candle span is positive;
`num_hours` truncates toward zero. -/
def initialize_cache_entry (job : CalculationJob) (now : Int)
    (candle_range : Option (Int × Int))
    (completeness : Except Unit (Option Int × Int)) : CompletenessInfo :=
  let info0 := CompletenessInfo.from_job job now
  let info1 :=
    match candle_range with
    | some r => { info0 with first_candle_time := some r.1,
                             last_candle_time := some r.2 }
    | none => info0
  match completeness with
  | .error _ => info1
  | .ok res =>
    let info2 := { info1 with last_calculated_time := res.1,
                              data_count := res.2 }
    match info2.first_candle_time, info2.last_candle_time, res.1 with
    | some first_candle, some last_candle, some last_calc =>
      let candle_span := last_candle - first_candle
      if 0 < candle_span then
        let calc_span := last_calc - first_candle
        let coverage := (calc_span : Rat) / (candle_span : Rat) * 100
        let cp := f64AsI32 (min coverage 100)
        let freshness := Int.tdiv (last_candle - last_calc) 3600
        { info2 with coverage_percent := cp,
                     is_complete := decide (freshness ≤ 24 ∧ 95 ≤ cp) }
      else info2
    | _, _, _ => info2

/-- The spec's coverage formula, verbatim (§4.3 step 4):
`clamp(0, 100, (last_calc − first_candle) / (last_candle − first_candle) × 100)`.
Stated only to be compared against the code's derivation. -/
def coverageSpecFormula (first_candle last_candle last_calc : Int) : Rat :=
  max 0 (min 100
    (((last_calc - first_candle : Int) : Rat)
      / ((last_candle - first_candle : Int) : Rat) * 100))

/-! ## Idempotent batch upsert (`database/postgres.rs`,
`insert_calculated_indicators_batch`, lines 269–308) -/

/-- One element of the insertion batch (`CalculatedIndicatorBatch`). -/
structure CalculatedIndicatorBatch where
  symbol : String
  interval : String
  indicator_type : String
  indicator_name : String
  parameters : Json
  time : Int
  value : Json
deriving DecidableEq

/-- The conflict target of the upsert:
`(symbol, interval, indicator_name, parameters, time)` — the unique index
`idx_calculated_indicators_unique`.  `indicator_type` is *not* part of it. -/
structure PointKey where
  symbol : String
  interval : String
  indicator_name : String
  parameters : Json
  time : Int
deriving DecidableEq

/-- The columns of a stored row that the upsert can touch
(`id`/`created_at` are assigned once at insert and never rewritten). -/
structure StoredRow where
  indicator_type : String
  value : Json
deriving DecidableEq

/-- Key of a batch element. -/
def CalculatedIndicatorBatch.key (b : CalculatedIndicatorBatch) : PointKey :=
  ⟨b.symbol, b.interval, b.indicator_name, b.parameters, b.time⟩

/-- The observable state of `calculated_indicators`, as a partial map from
the unique key to the mutable columns. -/
abbrev Store : Type := PointKey → Option StoredRow

/-- One `INSERT ... ON CONFLICT ... DO UPDATE SET value = EXCLUDED.value`:
a fresh key inserts the whole row; a conflict replaces only the `value`
column. -/
def upsertRow (s : Store) (b : CalculatedIndicatorBatch) : Store :=
  fun k =>
    if k = b.key then
      match s b.key with
      | some r => some { r with value := b.value }
      | none => some ⟨b.indicator_type, b.value⟩
    else s k

/-- Embeds `insert_calculated_indicators_batch`: the rows are applied in order
inside one transaction (the early `is_empty` return coincides with the empty
fold). -/
def insert_calculated_indicators_batch (s : Store)
    (batch : List CalculatedIndicatorBatch) : Store :=
  batch.foldl upsertRow s

/-! ## Worker control flow (`processor/worker.rs`) -/

/-- Events of one producer sweep, in program order. -/
inductive ProducerEv where
  | enqueue (job : CalculationJob)
  | leaseSet (key : String)
deriving DecidableEq

/-- The external calls the producer makes per config:
`pg.get_last_calculated_time` and `redis.exists`.  `Except Unit` is the
error case of each call. -/
structure ProducerEnv where
  last_calc : CalculationJob → Except Unit (Option Int)
  lease_exists : String → Except Unit Bool

/-- The per-sweep loop body of `Worker::job_producer`
(`processor/worker.rs`, lines 97–151): build the job; skip the config when
`get_last_calculated_time` errors; skip when the Redis lease key exists
(an `exists` error falls through); otherwise send the job and then set the
lease.  The completeness cache is never consulted. -/
def job_producer_sweep (env : ProducerEnv) (configs : List IndicatorConfig) :
    List ProducerEv :=
  configs.foldl
    (fun evs config =>
      let job := jobOfConfig config
      match env.last_calc job with
      | .error _ => evs
      | .ok _last_time =>
        let job_key := job.cache_key
        let in_progress :=
          match env.lease_exists job_key with
          | .ok b => b
          | .error _ => false
        if in_progress then evs
        else evs ++ [.enqueue job, .leaseSet job_key])
    []

/-- What one `Worker::process_job` run did: the error (if any) returned to
the consumer, the rows streamed to
`insert_calculated_indicators_batch` (flattened across the `batch_size`
chunks, which partition this same sequence), and whether `process_job`
itself deleted the Redis lease key.  Database inserts are modelled as
succeeding. -/
structure ProcOutcome where
  failed : Option String
  inserted : List CalculatedIndicatorBatch
  lease_deleted : Bool
deriving DecidableEq

/-- The row `process_job` pushes for one `(time, value)` result. -/
def batchRow (job : CalculationJob) (p : Int × Json) :
    CalculatedIndicatorBatch :=
  { symbol := job.symbol
    interval := job.interval
    indicator_type := job.indicator_type.toStr
    indicator_name := job.indicator_name
    parameters := job.parameters
    time := p.1
    value := p.2 }

/-- Embeds `Worker::process_job` (lines 190–269), parametrised by the
`calculate_indicator` dispatch it calls: empty candle series returns `Ok`
early (no lease deletion); a kernel error propagates (no lease deletion
here); an empty result set returns `Ok` early (no lease deletion); otherwise
the rows are inserted and the lease key is deleted at the end. -/
def process_job
    (calcFn : CalculationJob → CandleData → Except String (List (Int × Json)))
    (candle_data : CandleData) (job : CalculationJob) : ProcOutcome :=
  if candle_data.close.isEmpty then
    { failed := none, inserted := [], lease_deleted := false }
  else
    match calcFn job candle_data with
    | .error e => { failed := some e, inserted := [], lease_deleted := false }
    | .ok results =>
      if results.isEmpty then
        { failed := none, inserted := [], lease_deleted := false }
      else
        { failed := none, inserted := results.map (batchRow job),
          lease_deleted := true }

/-- The lease state after `Worker::job_consumer` handles the outcome
(lines 174–184): on an error it deletes the lease key itself; otherwise the
key is exactly as `process_job` left it. -/
def consumer_lease_deleted (o : ProcOutcome) : Bool :=
  o.lease_deleted || o.failed.isSome

/-- The `"RSI"` arm of `Worker::calculate_oscillator` (lines 292–305):
resolve `period` as `params["period"].as_u64().unwrap_or(14)`, run
`calculate_rsi`, and wrap each `f64` into a JSON number.  Only this arm is
ever applied below (all jobs considered have `indicator_name = "RSI"`). -/
def worker_calc_rsi (job : CalculationJob) (cd : CandleData) :
    Except String (List (Int × Json)) :=
  let period := paramU64D job.parameters "period" 14
  match calculate_rsi cd period with
  | .error e => .error e
  | .ok results => .ok (results.map fun p => (p.1, Json.num (.ofFloat p.2)))

/-! ## Concrete scenario inputs (spec §8, S2 and S4) -/

/-- Scenario S2: sixteen strictly rising closes 10..25, `open_time i = i`. -/
def cdS2 : CandleData :=
  { symbol := "BTCUSDT", interval := "1d"
    open_time := [0, 1, 2, 3, 4, 5, 6, 7, 8, 9, 10, 11, 12, 13, 14, 15]
    open_price := [10, 11, 12, 13, 14, 15, 16, 17, 18, 19, 20, 21, 22, 23, 24, 25]
    high := [10, 11, 12, 13, 14, 15, 16, 17, 18, 19, 20, 21, 22, 23, 24, 25]
    low := [10, 11, 12, 13, 14, 15, 16, 17, 18, 19, 20, 21, 22, 23, 24, 25]
    close := [10, 11, 12, 13, 14, 15, 16, 17, 18, 19, 20, 21, 22, 23, 24, 25]
    volume := [1, 1, 1, 1, 1, 1, 1, 1, 1, 1, 1, 1, 1, 1, 1, 1] }

/-- Scenario S4: closes `[10, 11, 10, 10, 12]`, volumes
`[100, 200, 300, 400, 500]`, `open_time i = i`. -/
def cdS4 : CandleData :=
  { symbol := "BTCUSDT", interval := "1d"
    open_time := [0, 1, 2, 3, 4]
    open_price := [10, 11, 10, 10, 12]
    high := [10, 11, 10, 10, 12]
    low := [10, 11, 10, 10, 12]
    close := [10, 11, 10, 10, 12]
    volume := [100, 200, 300, 400, 500] }

/-! ## Concrete inputs for the claim theorems -/

/-- An empty candle series (the `candle_data.close.is_empty()` early exit). -/
def cdEmpty : CandleData :=
  { symbol := "BTCUSDT", interval := "1d"
    open_time := [], open_price := [], high := [], low := []
    close := [], volume := [] }

/-- An RSI job with empty parameters (every period falls back to the
default 14). -/
def jobRSI : CalculationJob :=
  { symbol := "BTCUSDT", interval := "1d"
    indicator_type := .oscillator, indicator_name := "RSI"
    parameters := Json.mkObj [] }

/-- The enabled config row that produces `jobRSI`. -/
def cfgRSI : IndicatorConfig :=
  { symbol := "BTCUSDT", interval := "1d"
    indicator_type := "oscillator", indicator_name := "RSI"
    parameters := Json.mkObj [], enabled := true }

/-- A fresh completeness record for `jobRSI` with `is_complete = true`
(updated at time 0). -/
def freshCompleteInfoRSI : CompletenessInfo :=
  { CompletenessInfo.from_job jobRSI 0 with is_complete := true }

/-- A completeness cache (TTL 30 minutes) holding exactly that fresh,
complete record under the job's key. -/
def completeCacheRSI : CompletenessCache :=
  { cache := [(jobCompletenessKey jobRSI, freshCompleteInfoRSI)]
    ttl_minutes := 30 }

/-- Producer environment: `get_last_calculated_time` succeeds (no prior
points), the Redis lease key does not exist. -/
def envNoLease : ProducerEnv :=
  { last_calc := fun _ => .ok none
    lease_exists := fun _ => .ok false }

/-- A cache holding one *stale* record for `jobRSI`: written at time 0 with
`is_complete = false`; at `now = 1800` its age equals the 30-minute TTL, so
`is_valid` is false. -/
def staleCacheRSI : CompletenessCache :=
  { cache := [(jobCompletenessKey jobRSI, CompletenessInfo.from_job jobRSI 0)]
    ttl_minutes := 30 }

end Backtester

namespace Backtester

/-! ## Theorems -/

unseal Rat.add Rat.mul Rat.inv Rat.sub in
/-- C7: on the close series `[10, 11, ..., 25]` with `open_time i = i`, RSI
with period 14 emits exactly the points `(14, 100)` and `(15, 100)`: the
first point is at index 14 with value 100 and the point at index 15 is also
100 (a strictly rising series gives `avg_loss = 0`, mapped to RSI = 100). -/
theorem c7_rsi_monotone_series :
    calculate_rsi cdS2 14 = .ok [(14, 100), (15, 100)] := by
  decide

unseal Rat.add Rat.mul Rat.inv Rat.sub in
/-- C8: on closes `[10, 11, 10, 10, 12]` with volumes
`[100, 200, 300, 400, 500]` and `open_time i = i`, the OBV kernel emits the
points at indices 1..4 with values `200, -100, -100, 400`. -/
theorem c8_obv_direction :
    calculate_obv cdS4 = .ok [(1, 200), (2, -100), (3, -100), (4, 400)] := by
  decide

/-- C1 (evaluation at the failing input): a configuration whose fingerprint
has a fresh `complete = true` record in the completeness cache, and no live
lease, is nevertheless enqueued by the producer sweep — `job_producer` never
consults the cache, so the sweep pushes the job and sets the lease. -/
theorem c1_complete_config_still_enqueued :
    is_job_complete completeCacheRSI 0 jobRSI = true ∧
    job_producer_sweep envNoLease [cfgRSI]
      = [.enqueue jobRSI, .leaseSet jobRSI.cache_key] := by
  exact ⟨by decide, by decide⟩

/-- C2 (counterexample): a non-empty candle series shorter than the RSI
warm-up (5 < 14 + 1) makes `process_job` return an error — the consumer
*does* take the error path for `InsufficientData`; the job is a failure, not
a committed no-op. -/
theorem c2_insufficient_data_is_error :
    cdS4.close.length < 14 + 1 ∧
    (process_job worker_calc_rsi cdS4 jobRSI).failed
      = some "Not enough data points for RSI calculation" := by
  exact ⟨by decide, rfl⟩

/-- C3 (counterexample): on the empty-series early exit, `process_job`
returns `Ok` (a terminal, non-failed state for the job) but neither it nor
`job_consumer` deletes the in-flight lease key — the lease survives until
its TTL. -/
theorem c3_empty_series_keeps_lease :
    (process_job worker_calc_rsi cdEmpty jobRSI).failed = none ∧
    consumer_lease_deleted (process_job worker_calc_rsi cdEmpty jobRSI)
      = false := by
  exact ⟨rfl, rfl⟩

/-- The per-key effect of applying one batch to a cell: with no occurrence
of the key the cell is unchanged; otherwise the stored `indicator_type`
comes from the pre-state (or from the first conflicting row, when the cell
was empty) and the `value` from the key's last occurrence in the batch. -/
def upsertResult (sk : Option StoredRow)
    (occs : List CalculatedIndicatorBatch) : Option StoredRow :=
  match occs with
  | [] => sk
  | h :: t =>
    some ⟨sk.elim h.indicator_type StoredRow.indicator_type,
          (t.getLastD h).value⟩

lemma insert_batch_apply (batch : List CalculatedIndicatorBatch) :
    ∀ (s : Store) (k : PointKey),
      insert_calculated_indicators_batch s batch k
        = upsertResult (s k) (batch.filter fun b => decide (b.key = k)) := by
  induction batch with
  | nil =>
    intro s k
    rfl
  | cons b bs ih =>
    intro s k
    have step : insert_calculated_indicators_batch s (b :: bs) k
        = insert_calculated_indicators_batch (upsertRow s b) bs k := rfl
    rw [step, ih]
    by_cases hk : b.key = k
    · subst hk
      have hfil : (b :: bs).filter (fun x => decide (x.key = b.key))
          = b :: bs.filter (fun x => decide (x.key = b.key)) := by
        simp [List.filter_cons]
      rw [hfil]
      have hup : upsertRow s b b.key
          = some ⟨(s b.key).elim b.indicator_type StoredRow.indicator_type,
                  b.value⟩ := by
        cases hsk : s b.key with
        | none => simp [upsertRow, hsk]
        | some r => simp [upsertRow, hsk]
      rw [hup]
      cases hbs : bs.filter (fun x => decide (x.key = b.key)) with
      | nil => simp [upsertResult]
      | cons h t =>
        cases t with
        | nil => simp [upsertResult]
        | cons t1 ts =>
          cases hgl : (t1 :: ts).getLast? with
          | none => simp at hgl
          | some x => simp [upsertResult, hgl]
    · have hfil : (b :: bs).filter (fun x => decide (x.key = k))
          = bs.filter (fun x => decide (x.key = k)) := by
        simp [List.filter_cons, hk]
      have hne : ¬(k = b.key) := fun h => hk h.symm
      have hup : upsertRow s b k = s k := by
        simp [upsertRow, hne]
      rw [hfil, hup]

/-- C5: upserting the same batch twice leaves the store in the same
observable state as upserting it once.  Each row is keyed on
`(symbol, interval, indicator_name, parameters, time)` and a conflict
replaces only the `value` column, so re-applying an identical batch is a
no-op on the map from keys to stored rows. -/
theorem c5_upsert_idempotent (s : Store)
    (batch : List CalculatedIndicatorBatch) :
    insert_calculated_indicators_batch
        (insert_calculated_indicators_batch s batch) batch
      = insert_calculated_indicators_batch s batch := by
  funext k
  rw [insert_batch_apply, insert_batch_apply]
  cases hf : batch.filter (fun b => decide (b.key = k)) with
  | nil => rfl
  | cons h t => simp [upsertResult]

/-- C9: parameter resolution is total.  `get_integer_param` always returns
`Ok`; when no entry matches the name with an `i64`-convertible number it
returns the hard-coded default; and the worker's
`params["period"].as_u64().unwrap_or(14)` idiom yields 14 whenever the
`period` key is absent or non-numeric.  No `InvalidParameter` error can
arise from the lookup itself. -/
theorem c9_parameter_resolution_total :
    (∀ (parameters : List (String × Json)) (name : String) (default : Int),
      ∃ v, get_integer_param parameters name default = .ok v) ∧
    (∀ (parameters : List (String × Json)) (name : String) (default : Int),
      (∀ p ∈ parameters, p.1 = name → p.2.paramI64 = none) →
      get_integer_param parameters name default = .ok default) ∧
    (∀ params : Json, (params.index "period").asU64 = none →
      paramU64D params "period" 14 = 14) := by
  refine ⟨?_, ?_, ?_⟩
  · intro ps name d
    induction ps with
    | nil => exact ⟨d, rfl⟩
    | cons p rest ih =>
      obtain ⟨pn, pv⟩ := p
      by_cases h : pn = name
      · cases hv : pv.paramI64 with
        | some i =>
          exact ⟨i32cast i, by simp [get_integer_param, h, hv]⟩
        | none =>
          obtain ⟨v', hv'⟩ := ih
          exact ⟨v', by simp [get_integer_param, h, hv, hv']⟩
      · obtain ⟨v', hv'⟩ := ih
        exact ⟨v', by simp [get_integer_param, h, hv']⟩
  · intro ps name d hall
    induction ps with
    | nil => rfl
    | cons p rest ih =>
      obtain ⟨pn, pv⟩ := p
      have hrest := ih (fun q hq => hall q (List.mem_cons_of_mem _ hq))
      by_cases h : pn = name
      · have hnone := hall (pn, pv) (List.mem_cons_self _ _) h
        simp [get_integer_param, h, hnone, hrest]
      · simp [get_integer_param, h, hrest]
  · intro params h
    simp [paramU64D, h]

/-- Witness for C9: on a parameter list whose only `period` entry is the
string `"x"`, and on an empty parameter object, both resolutions fall back
to the default. -/
theorem c9_parameter_resolution_witness :
    get_integer_param [("period", Json.str "x")] "period" 14 = .ok 14 ∧
    paramU64D (Json.mkObj []) "period" 14 = 14 := by
  have h := c9_parameter_resolution_total
  exact ⟨h.2.1 [("period", Json.str "x")] "period" 14 (by decide),
         h.2.2 (Json.mkObj []) (by decide)⟩

/-- C10: `CompletenessCache::get` returns a record only while it is valid
(its age is within the TTL); `get_stats` counts every stored entry with
`total = complete + incomplete` over the raw map; and a stale entry can be
counted by `get_stats` yet be invisible to `get` (concretely:
`staleCacheRSI` at `now = 1800`). -/
theorem c10_cache_get_ttl_and_stats :
    (∀ (c : CompletenessCache) (now : Int) (job : CalculationJob)
        (info : CompletenessInfo),
      c.get now job = some info → info.is_valid now c.ttl_minutes = true) ∧
    (∀ c : CompletenessCache,
      (c.get_stats).1 = (c.get_stats).2.1 + (c.get_stats).2.2) ∧
    (staleCacheRSI.get_stats = (1, 0, 1) ∧
     staleCacheRSI.get 1800 jobRSI = none) := by
  refine ⟨?_, ?_, by decide, by decide⟩
  · intro c now job info h
    unfold CompletenessCache.get at h
    cases hf : c.cache.find? (fun e => e.1 = jobCompletenessKey job) with
    | none =>
      rw [hf] at h
      exact absurd h (by simp)
    | some e =>
      rw [hf] at h
      dsimp only at h
      by_cases hv : e.2.is_valid now c.ttl_minutes = true
      · rw [if_pos hv] at h
        have h2 := Option.some.inj h
        rw [← h2]
        exact hv
      · rw [if_neg hv] at h
        exact absurd h (by simp)
  · intro c
    have hle := List.length_filter_le
      (fun e : String × CompletenessInfo => e.2.is_complete) c.cache
    simp only [CompletenessCache.get_stats]
    omega

/-- Witness for C10: the TTL conjunct applied at a cache whose single
record, written at time 0, is read back at time 10 (well inside the
30-minute TTL). -/
theorem c10_cache_get_ttl_witness :
    freshCompleteInfoRSI.is_valid 10 completeCacheRSI.ttl_minutes = true := by
  exact c10_cache_get_ttl_and_stats.1 completeCacheRSI 10 jobRSI
    freshCompleteInfoRSI (by decide)

/-- C2 (amended): a non-empty candle series shorter than the resolved RSI
warm-up makes the kernel return the `InsufficientData` error
`"Not enough data points for RSI calculation"`; `process_job` propagates it
(the job fails, no points are emitted, `process_job` itself does not touch
the lease) and `job_consumer`'s error path then deletes the lease key. -/
theorem c2_insufficient_data_amended :
    ∀ (cd : CandleData) (job : CalculationJob),
      cd.close ≠ [] →
      cd.close.length < paramU64D job.parameters "period" 14 + 1 →
      (process_job worker_calc_rsi cd job).failed
          = some "Not enough data points for RSI calculation" ∧
      (process_job worker_calc_rsi cd job).inserted = [] ∧
      (process_job worker_calc_rsi cd job).lease_deleted = false ∧
      consumer_lease_deleted (process_job worker_calc_rsi cd job) = true := by
  intro cd job hne hlen
  have hE : cd.close.isEmpty = false := by
    cases hc : cd.close with
    | nil => exact absurd hc hne
    | cons a l => rfl
  have hcalc : worker_calc_rsi job cd
      = .error "Not enough data points for RSI calculation" := by
    unfold worker_calc_rsi calculate_rsi
    simp [hlen]
  refine ⟨?_, ?_, ?_, ?_⟩ <;>
    simp [process_job, consumer_lease_deleted, hE, hcalc]

/-- Witness for C2: the amended statement evaluated on the five-candle
series `cdS4` and the default-parameter RSI job. -/
theorem c2_insufficient_data_witness :
    (process_job worker_calc_rsi cdS4 jobRSI).failed
      = some "Not enough data points for RSI calculation" ∧
    consumer_lease_deleted (process_job worker_calc_rsi cdS4 jobRSI)
      = true := by
  have h := c2_insufficient_data_amended cdS4 jobRSI (by decide) (by decide)
  exact ⟨h.1, h.2.2.2⟩

/-- C3 (amended): the lease key is deleted when the job fails (by the
consumer's error path) and when `process_job` commits at least one point
(by `process_job` itself); but on the two early exits — empty candle series,
or a kernel that emits no points — `process_job` returns `Ok` without
deleting the lease, leaving the key to its TTL. -/
theorem c3_lease_release_amended :
    ∀ (calcFn : CalculationJob → CandleData →
        Except String (List (Int × Json)))
      (cd : CandleData) (job : CalculationJob),
      ((process_job calcFn cd job).failed.isSome →
        consumer_lease_deleted (process_job calcFn cd job) = true) ∧
      (∀ rs, cd.close.isEmpty = false → calcFn job cd = .ok rs → rs ≠ [] →
        (process_job calcFn cd job).lease_deleted = true) ∧
      (cd.close.isEmpty = true →
        (process_job calcFn cd job).failed = none ∧
        (process_job calcFn cd job).lease_deleted = false) ∧
      (cd.close.isEmpty = false → calcFn job cd = .ok [] →
        (process_job calcFn cd job).failed = none ∧
        (process_job calcFn cd job).lease_deleted = false) := by
  intro calcFn cd job
  refine ⟨?_, ?_, ?_, ?_⟩
  · intro h
    simp [consumer_lease_deleted, h]
  · intro rs hE hok hne
    have hres : rs.isEmpty = false := by
      cases rs with
      | nil => exact absurd rfl hne
      | cons a l => rfl
    simp [process_job, hE, hok, hres]
  · intro hE
    simp [process_job, hE]
  · intro hE hok
    simp [process_job, hE, hok]

unseal Rat.add Rat.mul Rat.inv Rat.sub in
/-- Witness for C3: on the sixteen-candle series `cdS2` the RSI job commits
two points, and the amended statement yields the lease deletion. -/
theorem c3_lease_release_witness :
    (process_job worker_calc_rsi cdS2 jobRSI).lease_deleted = true := by
  have h := c3_lease_release_amended worker_calc_rsi cdS2 jobRSI
  exact h.2.1 [(14, Json.num (.ofFloat 100)), (15, Json.num (.ofFloat 100))]
    (by decide) (by decide) (by decide)

/-- Helper: `chrono::Duration::num_hours(x) ≤ 24` (truncating division
toward zero) is the same as `x < 25` hours, i.e. `x < 90000` seconds. -/
lemma tdiv_le_24_iff (s : Int) : s.tdiv 3600 ≤ 24 ↔ s < 90000 := by
  rcases le_or_lt 0 s with h | h
  · rw [Int.tdiv_eq_ediv h (by norm_num)]
    constructor
    · intro hle
      have h2 := Int.emod_lt_of_pos s (show (0 : Int) < 3600 by norm_num)
      have h3 := Int.emod_nonneg s (show (3600 : Int) ≠ 0 by norm_num)
      have h4 := Int.ediv_add_emod s 3600
      nlinarith
    · intro hlt
      have hq : s / 3600 < 25 := by
        rw [Int.ediv_lt_iff_lt_mul (by norm_num : (0 : Int) < 3600)]
        linarith
      omega
  · constructor
    · intro _
      linarith
    · intro _
      have hn : (0 : Int) ≤ -s := by linarith
      have hpos := Int.tdiv_nonneg hn (show (0 : Int) ≤ 3600 by norm_num)
      have hneg : (-s).tdiv 3600 = -(s.tdiv 3600) := Int.neg_tdiv s 3600
      omega

unseal Rat.add Rat.mul Rat.inv Rat.sub in
/-- C6 (counterexample): with first-candle time 100, last-candle time 200
and last-calculated time 0 (all defined, candle span positive), the rebuild
derives `coverage_percent = -100`, whereas the claimed `clamp(0, 100, ·)`
formula gives 0 — the implementation only caps at 100 and has no lower
clamp. -/
theorem c6_coverage_not_clamped_below :
    (initialize_cache_entry jobRSI 0 (some (100, 200))
        (.ok (some 0, 5))).coverage_percent = -100 ∧
    f64AsI32 (coverageSpecFormula 100 200 0) = 0 ∧
    (initialize_cache_entry jobRSI 0 (some (100, 200))
        (.ok (some 0, 5))).coverage_percent
      ≠ f64AsI32 (coverageSpecFormula 100 200 0) := by
  exact ⟨by decide, by decide, by decide⟩

/-- C6 (amended): when all three timestamps are defined and the candle span
is positive, `coverage_percent` is the `i32` truncation of
`min((last_calc − first) / (last − first) × 100, 100)` — capped above at 100
but *not* clamped below at 0 — and `complete` holds exactly when
`last_candle − last_calc` is under 25 hours (the whole-hour count is ≤ 24)
and `coverage_percent ≥ 95`.  When the candle range is missing or the span
is not positive, `coverage_percent` stays 0 and `complete` stays false. -/
theorem c6_completeness_derivation_amended :
    (∀ (job : CalculationJob)
        (now first_candle last_candle last_calc count : Int),
      first_candle < last_candle →
      (initialize_cache_entry job now (some (first_candle, last_candle))
          (.ok (some last_calc, count))).coverage_percent
        = f64AsI32 (min
            (((last_calc - first_candle : Int) : Rat)
              / ((last_candle - first_candle : Int) : Rat) * 100) 100) ∧
      ((initialize_cache_entry job now (some (first_candle, last_candle))
          (.ok (some last_calc, count))).is_complete = true ↔
        (last_candle - last_calc < 90000 ∧
          95 ≤ (initialize_cache_entry job now
              (some (first_candle, last_candle))
              (.ok (some last_calc, count))).coverage_percent))) ∧
    (∀ (job : CalculationJob) (now : Int) (res : Option Int × Int),
      (initialize_cache_entry job now none (.ok res)).coverage_percent = 0 ∧
      (initialize_cache_entry job now none (.ok res)).is_complete = false) ∧
    (∀ (job : CalculationJob)
        (now first_candle last_candle last_calc count : Int),
      last_candle ≤ first_candle →
      (initialize_cache_entry job now (some (first_candle, last_candle))
          (.ok (some last_calc, count))).coverage_percent = 0 ∧
      (initialize_cache_entry job now (some (first_candle, last_candle))
          (.ok (some last_calc, count))).is_complete = false) := by
  refine ⟨?_, ?_, ?_⟩
  · intro job now f l lc cnt hlt
    have hspan : (0 : Int) < l - f := by omega
    have hcov : (initialize_cache_entry job now (some (f, l))
        (.ok (some lc, cnt))).coverage_percent
        = f64AsI32 (min (((lc - f : Int) : Rat)
            / ((l - f : Int) : Rat) * 100) 100) := by
      simp [initialize_cache_entry, CompletenessInfo.from_job, hspan]
    have hic : (initialize_cache_entry job now (some (f, l))
        (.ok (some lc, cnt))).is_complete
        = decide (Int.tdiv (l - lc) 3600 ≤ 24 ∧
            95 ≤ f64AsI32 (min (((lc - f : Int) : Rat)
              / ((l - f : Int) : Rat) * 100) 100)) := by
      simp [initialize_cache_entry, CompletenessInfo.from_job, hspan]
    refine ⟨hcov, ?_⟩
    rw [hic, hcov, decide_eq_true_iff, tdiv_le_24_iff]
  · intro job now res
    constructor <;>
      simp [initialize_cache_entry, CompletenessInfo.from_job]
  · intro job now f l lc cnt hle
    have hspan : ¬((0 : Int) < l - f) := by omega
    constructor <;>
      simp [initialize_cache_entry, CompletenessInfo.from_job, hspan]

unseal Rat.add Rat.mul Rat.inv Rat.sub in
/-- Witness for C6: first candle 0, last candle 200000, last calculated
150000 — coverage is 75 % and, although the freshness window is satisfied,
the record is not complete. -/
theorem c6_completeness_derivation_witness :
    (initialize_cache_entry jobRSI 0 (some (0, 200000))
        (.ok (some 150000, 5))).coverage_percent = 75 ∧
    (initialize_cache_entry jobRSI 0 (some (0, 200000))
        (.ok (some 150000, 5))).is_complete = false := by
  have h := c6_completeness_derivation_amended.1 jobRSI 0 0 200000 150000 5
    (by decide)
  have hcov : (initialize_cache_entry jobRSI 0 (some (0, 200000))
      (.ok (some 150000, 5))).coverage_percent = 75 := by
    rw [h.1]
    decide
  refine ⟨hcov, ?_⟩
  cases hic : (initialize_cache_entry jobRSI 0 (some (0, 200000))
      (.ok (some 150000, 5))).is_complete with
  | false => rfl
  | true =>
    have h2 := h.2.mp hic
    rw [hcov] at h2
    exact absurd h2.2 (by decide)

/-- C4: emitted indices are in bounds and strictly ascending, for the three
cited kernels.  (Indices are `Nat`, so `0 ≤ index` holds by type.)
For the TA-Lib-backed SMA the ascending order is unconditional (the Rust
side re-indexes consecutively from `out_beg_idx`), and the upper bound holds
under TA-Lib's output contract `out_beg_idx + out_nb_element ≤ N`.  For the
hand-written Stochastic both hold outright (for positive periods).  For the
generic adapter `calculate_indicator`, in-bounds strictly-ascending TA-Lib
indices combined with strictly increasing `open_time` give strictly
ascending emitted timestamps. -/
theorem c4_kernel_index_contract :
    (∀ (close : List Rat) (params : List (String × Json)) (ta : TaOutput)
        (l : List (Nat × Rat)),
      calculate_sma close params ta = .ok l →
      ((l.map Prod.fst).Pairwise (· < ·) ∧
       (ta.out_beg_idx + ta.out_nb_element ≤ close.length →
        ∀ p ∈ l, p.1 < close.length))) ∧
    (∀ (cd : CandleData) (k s d : Nat) (l : List (Nat × (Rat × Rat))),
      1 ≤ k → 1 ≤ s → 1 ≤ d →
      calculate_stochastic cd k s d = .ok l →
      ((l.map Prod.fst).Pairwise (· < ·) ∧
       ∀ p ∈ l, p.1 < cd.close.length)) ∧
    (∀ (cd : CandleData) (results : List (Nat × Json))
        (l : List (Int × Json)),
      cd.open_time.Pairwise (· < ·) →
      cd.open_time.length = cd.close.length →
      (results.map Prod.fst).Pairwise (· < ·) →
      (∀ p ∈ results, p.1 < cd.close.length) →
      calculate_indicator cd (.ok results) = .ok l →
      (l.map Prod.fst).Pairwise (· < ·)) := by
  refine ⟨?_, ?_, ?_⟩
  · intro close params ta l h
    unfold calculate_sma at h
    by_cases h0 : close.length = 0
    · rw [if_pos h0] at h
      have hl : l = [] := (Except.ok.inj h).symm
      subst hl
      exact ⟨List.Pairwise.nil, fun _ p hp => absurd hp (List.not_mem_nil p)⟩
    · rw [if_neg h0] at h
      cases hgip : get_integer_param params "period" 14 with
      | error e =>
        rw [hgip] at h
        exact absurd h (by simp)
      | ok period =>
        rw [hgip] at h
        dsimp only at h
        by_cases hrc : ta.ret_code ≠ 0
        · rw [if_pos hrc] at h
          exact absurd h (by simp)
        · rw [if_neg hrc] at h
          have hl : l = (List.range ta.out_nb_element).map
              (fun i => (ta.out_beg_idx + i, ta.out_data.getD i 0)) :=
            (Except.ok.inj h).symm
          subst hl
          constructor
          · rw [List.map_map]
            exact List.Pairwise.map _ (fun a b hab => by
                simp only [Function.comp]
                omega)
              (List.pairwise_lt_range _)
          · intro hle p hp
            rw [List.mem_map] at hp
            obtain ⟨i, hi, rfl⟩ := hp
            rw [List.mem_range] at hi
            simp only
            omega
  · intro cd k s d l hk hs hd h
    unfold calculate_stochastic at h
    by_cases hlen : cd.close.length < k + s + d
    · rw [if_pos hlen] at h
      exact absurd h (by simp)
    · rw [if_neg hlen] at h
      dsimp only at h
      have hl := (Except.ok.inj h).symm
      subst hl
      constructor
      · rw [List.map_map]
        exact List.Pairwise.map _ (fun a b hab => by
            simp only [Function.comp]
            omega)
          (List.pairwise_lt_range' _ _)
      · intro p hp
        rw [List.mem_map] at hp
        obtain ⟨i, hi, rfl⟩ := hp
        simp only [List.length_map, List.length_range'] at hi
        rw [List.mem_range'_1] at hi
        simp only
        omega
  · intro cd results l hot hlen hpw hbnd h
    unfold calculate_indicator at h
    by_cases h0 : cd.close.length = 0
    · rw [if_pos h0] at h
      exact absurd h (by simp)
    · rw [if_neg h0] at h
      dsimp only at h
      have hl := (Except.ok.inj h).symm
      subst hl
      rw [List.map_map, List.pairwise_map]
      rw [List.pairwise_map] at hpw
      refine hpw.imp_of_mem ?_
      intro a b ha hb hab
      have hA : a.1 < cd.open_time.length := by
        rw [hlen]
        exact hbnd a ha
      have hB : b.1 < cd.open_time.length := by
        rw [hlen]
        exact hbnd b hb
      simp only [Function.comp, if_pos hA, if_pos hB]
      have hget := List.pairwise_iff_get.mp hot ⟨a.1, hA⟩ ⟨b.1, hB⟩
        (Fin.mk_lt_mk.mpr hab)
      rw [List.getD_eq_getElem _ _ hA, List.getD_eq_getElem _ _ hB]
      simpa using hget

unseal Rat.add Rat.mul Rat.inv Rat.sub in
/-- Witness for C4: the SMA conjunct on six closes with a TA-Lib output of
four points starting at index 2, and the adapter conjunct on `cdS4` with two
in-bounds ascending results. -/
theorem c4_kernel_index_contract_witness :
    ((([(2, (2 : Rat)), (3, 3), (4, 4), (5, 5)]).map Prod.fst).Pairwise
      (· < ·)) ∧
    ((([((1 : Int), Json.null), (3, Json.null)]).map Prod.fst).Pairwise
      (· < ·)) := by
  have h := c4_kernel_index_contract
  refine ⟨(h.1 [1, 2, 3, 4, 5, 6] [] ⟨0, 2, 4, [2, 3, 4, 5]⟩
      [(2, 2), (3, 3), (4, 4), (5, 5)] (by decide)).1, ?_⟩
  exact h.2.2 cdS4 [(1, Json.null), (3, Json.null)]
    [(1, Json.null), (3, Json.null)]
    (by decide) (by decide) (by decide) (by decide) (by decide)

end Backtester
